import Mathlib

/-!
Shallow embedding of `src/app.py` (MicroservicioIA): a Flask microservice
holding four module-level mutable variables (`_index_cache`, `_ready`,
`_offline_mode`, `_last_init_attempt`), an index-initialization routine
`init_index`, a lazy wrapper `ensure_ready`, and the HTTP handlers
`healthz` (GET /healthz) and `query` (POST /api/query).

External collaborators (MongoDB, the llama_index reader, the vector index
builder and its query engine) are modelled as oracles: a record of the
outcomes their calls would produce during one handler execution.  Each
handler is a total Lean function from configuration, oracle, state and
input to a response, the successor state, and a trace of the calls made to
external backends.  A Python exception that the handler catches is an
`Except.error` / `Option` outcome in the oracle; an exception that
propagates out of a routine is an explicit `raised` field of its result.
-/

namespace App

/-- A document stored in the Mongo collection: the internal identifier
(`_id`), the designated text field `name` that the offline search matches
against, and the remaining fields (modelled as string key/value pairs). -/
structure StoredDoc where
  id : String
  name : String
  rest : List (String × String)
deriving DecidableEq, Repr

/-- A stored document as Mongo returns it under the projection
`{"_id": 0}`: the same document without its internal identifier. -/
structure PubDoc where
  name : String
  rest : List (String × String)
deriving DecidableEq, Repr

/-- The projection `{"_id": 0}` applied to one document. -/
def StoredDoc.project (d : StoredDoc) : PubDoc :=
  ⟨d.name, d.rest⟩

/-- A llama_index document, as produced by the reader or by the manual
PyMongo fallback (`Document(text=json.dumps(d))`); only its text matters
to this model. -/
structure LIDoc where
  text : String
deriving DecidableEq, Repr

/-- The vector index handle (`GPTVectorStoreIndex.from_documents(docs)`),
opaque except for the documents it was built from. -/
structure VectorIndex where
  docs : List LIDoc
deriving DecidableEq, Repr

/-- JSON values occurring in the response bodies built by `app.py`. -/
inductive JVal where
  | str (s : String)
  | int (n : Int)
  | bool (b : Bool)
  | doc (d : PubDoc)
  | arr (xs : List JVal)
deriving Repr

/-- An HTTP response: status code and JSON-object body (ordered fields). -/
structure Resp where
  status : Nat
  body : List (String × JVal)
deriving Repr

/-- Whether the response body carries a field named `k`. -/
def hasKey (body : List (String × JVal)) (k : String) : Bool :=
  body.any fun p => p.1 == k

/-- The value of field `k` of a response body, when present. -/
def getField (body : List (String × JVal)) (k : String) : Option JVal :=
  (body.find? fun p => p.1 == k).map Prod.snd

/-- The environment-derived configuration read at module load:
`MONGO_URI` (stripped), `MONGO_DB`, `MONGO_COLLECTION`, and
`OPENAI_API_KEY` (stripped). -/
structure Config where
  mongoUri : String
  dbName : String
  collectionName : String
  openaiKey : String
deriving DecidableEq, Repr

/-- The module-level mutable state: `_index_cache`, `_ready`,
`_offline_mode`, `_last_init_attempt`. -/
structure AppState where
  indexCache : Option VectorIndex
  ready : Bool
  offlineMode : Bool
  lastInitAttempt : Int
deriving DecidableEq, Repr

/-- One call made to an external backend during a handler execution. -/
inductive Effect where
  | mongoPing
  | loadDocuments
  | buildIndex
  | indexQuery (question : String)
  | storeFind (question : String)
deriving DecidableEq, Repr

/-- Python `str.strip()`: drop leading and trailing whitespace. -/
def pyStrip (s : String) : String :=
  ⟨((s.data.dropWhile Char.isWhitespace).reverse.dropWhile Char.isWhitespace).reverse⟩

/-- Python `str.lower()` viewed as a character list (ASCII case folding). -/
def pyLower (s : String) : List Char :=
  s.data.map Char.toLower

/-- Whether the first list occurs at the head of the second. -/
def leadsWith : List Char → List Char → Bool
  | [], _ => true
  | _ :: _, [] => false
  | a :: as, b :: bs => a == b && leadsWith as bs

/-- Whether `pat` occurs somewhere inside the second list. -/
def occursIn (pat : List Char) : List Char → Bool
  | [] => leadsWith pat []
  | c :: rest => leadsWith pat (c :: rest) || occursIn pat rest

/-- Case-insensitive containment test: the semantics of Mongo's
`{"$regex": pat, "$options": "i"}` filter for a metacharacter-free
pattern — the field value contains the pattern, ignoring case. -/
def ciContains (haystack pat : String) : Bool :=
  occursIn (pyLower pat) (pyLower haystack)

/-- Semantics of the store call issued by the offline branch of `query`:
`collection.find({"name": {"$regex": question, "$options": "i"}}, {"_id": 0})`
— every document of the collection whose `name` field matches the question
case-insensitively, each returned without its `_id` field, in collection
order. -/
def mongoFindNameRegex (coll : List StoredDoc) (question : String) : List PubDoc :=
  (coll.filter fun d => ciContains d.name question).map StoredDoc.project

/-- Outcomes of the external calls one `init_index` attempt would make:
whether `client.admin.command("ping")` succeeds, the result of loading the
documents (abstracting `_load_docs_with_reader`, whose calling-convention
cascade and manual PyMongo fallback are a shim over the external reader;
`Except.error` is an exception escaping the load), and whether
`GPTVectorStoreIndex.from_documents` succeeds. -/
structure InitEnv where
  pingOk : Bool
  loadResult : Except String (List LIDoc)
  buildOk : Bool

/-- Result of one `init_index` call: the successor global state, the
exception propagating out of the call (if any), and the trace of external
backend calls made. -/
structure InitResult where
  state : AppState
  raised : Option String
  effects : List Effect

/-- Embedding of `init_index(force)` (src/app.py lines 60-96).

* Guard: `if not force and time.time() - _last_init_attempt < 30: return`
  — a no-op that touches nothing and contacts no backend.
* An admitted call first sets `_last_init_attempt = time.time()`.
* `if not MONGO_URI: raise RuntimeError(...)` — the exception propagates
  (it is outside the `try`), with only the timestamp already updated.
* Inside the `try`: ping, load documents, then — only when
  `OPENAI_API_KEY` is configured — build the vector index; with no key the
  cache is set to `None` and offline mode entered, yet `_ready = True`.
* Any exception inside the `try` is caught: `_ready = False`,
  `_offline_mode = True`, the cache keeping its prior value. -/
def init_index (cfg : Config) (env : InitEnv) (force : Bool) (now : Int)
    (s : AppState) : InitResult :=
  if force = false ∧ now - s.lastInitAttempt < 30 then
    ⟨s, none, []⟩
  else if cfg.mongoUri = "" then
    ⟨⟨s.indexCache, s.ready, s.offlineMode, now⟩,
      some "MONGO_URI no configurada", []⟩
  else if env.pingOk = false then
    ⟨⟨s.indexCache, false, true, now⟩, none, [.mongoPing]⟩
  else
    match env.loadResult with
    | .error _ =>
        ⟨⟨s.indexCache, false, true, now⟩, none,
          [.mongoPing, .loadDocuments]⟩
    | .ok docs =>
        if cfg.openaiKey ≠ "" then
          if env.buildOk then
            ⟨⟨some ⟨docs⟩, true, false, now⟩, none,
              [.mongoPing, .loadDocuments, .buildIndex]⟩
          else
            ⟨⟨s.indexCache, false, true, now⟩, none,
              [.mongoPing, .loadDocuments, .buildIndex]⟩
        else
          ⟨⟨none, true, true, now⟩, none,
            [.mongoPing, .loadDocuments]⟩

/-- Embedding of `ensure_ready()` (src/app.py lines 99-106): call
`init_index()` when the readiness flag is down, otherwise do nothing.
Note that in src/app.py no route handler calls this function. -/
def ensure_ready (cfg : Config) (env : InitEnv) (now : Int)
    (s : AppState) : InitResult :=
  if s.ready = false then init_index cfg env false now s
  else ⟨s, none, []⟩

/-- Embedding of the `GET /healthz` handler (src/app.py lines 119-126). -/
def healthz (cfg : Config) (s : AppState) : Resp :=
  ⟨if s.ready then 200 else 503,
   [("ok", .bool s.ready),
    ("offline_mode", .bool s.offlineMode),
    ("mongo_uri_configured", .bool (cfg.mongoUri != "")),
    ("index_cached", .bool s.ready)]⟩

/-- Body of the 400 response for a missing or empty `message`. -/
def badRequestBody : List (String × JVal) :=
  [("error", .str "Debe enviar un campo \x27message\x27")]

/-- Body of the 503 standby response returned when `_ready` is false. -/
def standbyBody : List (String × JVal) :=
  [("response",
    .str "🕐 El asistente se está reactivando, intentá nuevamente en unos segundos."),
   ("standby", .bool true)]

/-- Body of the 200 index-backed response: `{response, elapsed, mode}`. -/
def onlineBody (answer : String) (elapsed : Int) : List (String × JVal) :=
  [("response", .str answer),
   ("elapsed", .int elapsed),
   ("mode", .str "online")]

/-- Body of the 200 offline response when the store search found matches:
the templated count message, the first three matches as examples, and mode
`offline` — no `elapsed` field. -/
def offlineFoundBody (count : Nat) (question : String)
    (preview : List PubDoc) : List (String × JVal) :=
  [("response",
    .str ("🔍 Encontré " ++ toString count ++
      " coincidencias relacionadas con \x27" ++ question ++ "\x27.")),
   ("examples", .arr (preview.map .doc)),
   ("mode", .str "offline")]

/-- Body of the 200 offline response when the store search found nothing:
a fixed message and mode `offline` — no `examples` and no `elapsed`. -/
def offlineEmptyBody (question : String) : List (String × JVal) :=
  [("response",
    .str ("🤖 No encontré coincidencias locales para \x27" ++ question ++ "\x27.")),
   ("mode", .str "offline")]

/-- Body of the 500 response produced by the handler's `except` clause. -/
def errorBody (e : String) : List (String × JVal) :=
  [("response", .str "⚠️ No pude procesar tu consulta."),
   ("error", .str e)]

/-- Outcomes of the external calls one `query` execution would make: the
result of `as_query_engine().query(question)` (error = exception raised),
whether the offline store round-trip raises (and with what message), the
current contents of the configured collection, and the elapsed-time
measurement the handler would compute. -/
structure QueryEnv where
  engineResult : Except String String
  findFailure : Option String
  collection : List StoredDoc
  elapsed : Int

/-- Embedding of the `POST /api/query` handler (src/app.py lines 129-181).
The request body's `message` field is `message : Option String`
(`none` covers an absent field or an unparsable body, since
`request.get_json(silent=True) or {}` then yields `{}`).

* `question = (data.get("message") or "").strip()`; empty → 400.
* `if not _ready:` → 503 standby, contacting no backend.
* Index path when `not _offline_mode and _index_cache`; otherwise the
  offline store search.  Every exception inside the `try` becomes the
  structured 500 response.  The handler assigns no global variable. -/
def query (env : QueryEnv) (s : AppState) (message : Option String) :
    Resp × AppState × List Effect :=
  let question := pyStrip (message.getD "")
  if question = "" then
    (⟨400, badRequestBody⟩, s, [])
  else if s.ready = false then
    (⟨503, standbyBody⟩, s, [])
  else if !s.offlineMode && s.indexCache.isSome then
    match env.engineResult with
    | .ok answer => (⟨200, onlineBody answer env.elapsed⟩, s, [.indexQuery question])
    | .error e => (⟨500, errorBody e⟩, s, [.indexQuery question])
  else
    match env.findFailure with
    | some e => (⟨500, errorBody e⟩, s, [.storeFind question])
    | none =>
        let results := mongoFindNameRegex env.collection question
        if results.isEmpty then
          (⟨200, offlineEmptyBody question⟩, s, [.storeFind question])
        else
          (⟨200, offlineFoundBody results.length question (results.take 3)⟩,
            s, [.storeFind question])

/-- An `init_index` call is admitted (not short-circuited by the cooldown
guard) when forced or when at least 30 seconds have passed since the last
admitted attempt. -/
def initAdmitted (force : Bool) (now : Int) (s : AppState) : Prop :=
  force = true ∨ 30 ≤ now - s.lastInitAttempt

/-- The conditions under which an admitted `init_index` attempt runs to
the end of its `try` block: URI configured, ping succeeded, documents
loaded, and — when an OpenAI key is configured — the index build
succeeded. -/
def initSuccess (cfg : Config) (env : InitEnv) : Prop :=
  cfg.mongoUri ≠ "" ∧ env.pingOk = true ∧
    (∃ ds, env.loadResult = Except.ok ds) ∧
    (cfg.openaiKey ≠ "" → env.buildOk = true)

/-- Exhaustive description of the results a `query` execution can
produce: the 400 bad-request, the 503 standby, the 200 index-backed
response, the two 200 offline responses, or the structured 500 — in every
case with the global state returned unchanged. -/
theorem query_shape (env : QueryEnv) (s : AppState) (message : Option String) :
    (pyStrip (message.getD "") = "" ∧
      query env s message = (⟨400, badRequestBody⟩, s, [])) ∨
    query env s message = (⟨503, standbyBody⟩, s, []) ∨
    (∃ a, query env s message =
      (⟨200, onlineBody a env.elapsed⟩, s,
        [.indexQuery (pyStrip (message.getD ""))])) ∨
    (∃ q, query env s message = (⟨200, offlineEmptyBody q⟩, s, [.storeFind q])) ∨
    (∃ n q pv, query env s message =
      (⟨200, offlineFoundBody n q pv⟩, s, [.storeFind q])) ∨
    (∃ e eff, query env s message = (⟨500, errorBody e⟩, s, eff)) := by
  simp only [query]
  by_cases h0 : pyStrip (message.getD "") = ""
  · rw [if_pos h0]
    exact Or.inl ⟨h0, rfl⟩
  · rw [if_neg h0]
    by_cases h1 : s.ready = false
    · rw [if_pos h1]
      exact Or.inr (Or.inl rfl)
    · rw [if_neg h1]
      by_cases h2 : (!s.offlineMode && s.indexCache.isSome) = true
      · rw [if_pos h2]
        cases he : env.engineResult with
        | ok a =>
            exact Or.inr (Or.inr (Or.inl ⟨a, rfl⟩))
        | error e =>
            exact Or.inr (Or.inr (Or.inr (Or.inr (Or.inr ⟨e, _, rfl⟩))))
      · rw [if_neg h2]
        cases hf : env.findFailure with
        | some e =>
            exact Or.inr (Or.inr (Or.inr (Or.inr (Or.inr ⟨e, _, rfl⟩))))
        | none =>
            by_cases hr :
                (mongoFindNameRegex env.collection
                  (pyStrip (message.getD ""))).isEmpty = true
            · rw [if_pos hr]
              exact Or.inr (Or.inr (Or.inr (Or.inl ⟨_, rfl⟩)))
            · rw [if_neg hr]
              exact Or.inr (Or.inr (Or.inr (Or.inr (Or.inl ⟨_, _, _, rfl⟩))))

/-- C10: handling a `POST /api/query` request never modifies the shared
handler state — the index handle, readiness flag, offline-mode flag and
backoff timestamp are the same after the request (whatever its outcome)
as before it; in particular a query never triggers an index build. -/
theorem query_preserves_state (env : QueryEnv) (s : AppState)
    (message : Option String) :
    (query env s message).2.1 = s := by
  rcases query_shape env s message with ⟨-, h⟩ | h | ⟨a, h⟩ | ⟨q, h⟩
    | ⟨n, q, pv, h⟩ | ⟨e, eff, h⟩ <;> rw [h]

/-- C6: a request whose `message` is missing, empty, or whitespace-only
after trimming yields the 400 response before any backend is contacted
(the effect trace is empty) and before the standby check (the readiness
flag is not consulted: the result is 400 whatever `s.ready` is), with the
state untouched. -/
theorem empty_message_bad_request (env : QueryEnv) (s : AppState)
    (message : Option String) (hmsg : pyStrip (message.getD "") = "") :
    query env s message = (⟨400, badRequestBody⟩, s, []) := by
  simp only [query]
  rw [if_pos hmsg]

/-- Witness: a whitespace-only message on a non-ready state is rejected
with 400, no backend call and no state change. -/
theorem empty_message_bad_request_witness :
    query ⟨Except.ok "a", none, [], 0⟩ ⟨none, false, false, 0⟩ (some "   ") =
      (⟨400, badRequestBody⟩, ⟨none, false, false, 0⟩, []) :=
  empty_message_bad_request _ _ _ (by decide)

/-- C1: for every request whose `message` is non-empty after trimming the
handler yields a structured result and never an unhandled exception: the
503 standby outcome (tagged by its `standby` field), a 200 tagged
`online`, a 200 tagged `offline` (with or without examples), or — for any
failure inside the handler — the structured 500 carrying the user-safe
message and the error string.  Totality of `query` over all oracle
outcomes is the no-unhandled-exception property. -/
theorem query_mode_total (env : QueryEnv) (s : AppState)
    (message : Option String) (hmsg : pyStrip (message.getD "") ≠ "") :
    (query env s message).1 = ⟨503, standbyBody⟩ ∨
    (∃ a, (query env s message).1 = ⟨200, onlineBody a env.elapsed⟩) ∨
    (∃ q, (query env s message).1 = ⟨200, offlineEmptyBody q⟩) ∨
    (∃ n q pv, (query env s message).1 = ⟨200, offlineFoundBody n q pv⟩) ∨
    (∃ e, (query env s message).1 = ⟨500, errorBody e⟩) := by
  rcases query_shape env s message with ⟨h0, -⟩ | h | ⟨a, h⟩ | ⟨q, h⟩
    | ⟨n, q, pv, h⟩ | ⟨e, eff, h⟩
  · exact absurd h0 hmsg
  · exact Or.inl (by rw [h])
  · exact Or.inr (Or.inl ⟨a, by rw [h]⟩)
  · exact Or.inr (Or.inr (Or.inl ⟨q, by rw [h]⟩))
  · exact Or.inr (Or.inr (Or.inr (Or.inl ⟨n, q, pv, by rw [h]⟩)))
  · exact Or.inr (Or.inr (Or.inr (Or.inr ⟨e, by rw [h]⟩)))

/-- Witness: on a concrete non-ready state with the message `"hola"` the
classification holds (the standby disjunct is the one realized). -/
theorem query_mode_total_witness :
    (query ⟨Except.ok "a", none, [], 0⟩ ⟨none, false, false, 0⟩
        (some "hola")).1 = ⟨503, standbyBody⟩ ∨
    (∃ a, (query ⟨Except.ok "a", none, [], 0⟩ ⟨none, false, false, 0⟩
        (some "hola")).1 = ⟨200, onlineBody a 0⟩) ∨
    (∃ q, (query ⟨Except.ok "a", none, [], 0⟩ ⟨none, false, false, 0⟩
        (some "hola")).1 = ⟨200, offlineEmptyBody q⟩) ∨
    (∃ n q pv, (query ⟨Except.ok "a", none, [], 0⟩ ⟨none, false, false, 0⟩
        (some "hola")).1 = ⟨200, offlineFoundBody n q pv⟩) ∨
    (∃ e, (query ⟨Except.ok "a", none, [], 0⟩ ⟨none, false, false, 0⟩
        (some "hola")).1 = ⟨500, errorBody e⟩) :=
  query_mode_total _ _ _ (by decide)

/-- C2 counterexample: a `POST /api/query` with a non-empty message
arriving while the readiness flag is false triggers no initialization
attempt at all — the handler answers 503 standby with an empty backend
trace (no store connection, ping, load or build occurs) and the state,
backoff timestamp included, is exactly as before. -/
theorem query_standby_no_init_cex :
    query ⟨Except.ok "ans", none, [], 1⟩ ⟨none, false, false, 0⟩ (some "hola") =
      (⟨503, standbyBody⟩, ⟨none, false, false, 0⟩, []) := rfl

/-- C2 (amended): a query arriving while the readiness flag is false gets
the 503 standby response without any initialization attempt — no backend
effect, state unchanged; the build-on-first-use behaviour lives only in
`ensure_ready` (which, when the flag is down, does call `init_index`),
but no request handler invokes it. -/
theorem query_standby_skips_init (env : QueryEnv) (s : AppState)
    (message : Option String) (hready : s.ready = false)
    (hmsg : pyStrip (message.getD "") ≠ "") :
    query env s message = (⟨503, standbyBody⟩, s, []) ∧
    (∀ (cfg : Config) (ienv : InitEnv) (now : Int),
      ensure_ready cfg ienv now s = init_index cfg ienv false now s) := by
  constructor
  · simp only [query]
    rw [if_neg hmsg, if_pos hready]
  · intro cfg ienv now
    simp only [ensure_ready]
    rw [if_pos hready]

/-- Witness: concrete non-ready state and non-empty message. -/
theorem query_standby_skips_init_witness :
    query ⟨Except.ok "a", none, [], 0⟩ ⟨none, false, true, 5⟩ (some "hola") =
      (⟨503, standbyBody⟩, ⟨none, false, true, 5⟩, []) :=
  (query_standby_skips_init _ _ _ rfl (by decide)).1

/-- The cooldown guard of `init_index`: an unforced call arriving less
than 30 seconds after the recorded last attempt returns at once — no
state change, no exception, no backend call. -/
theorem init_index_guard_skip (cfg : Config) (env : InitEnv) (now : Int)
    (s : AppState) (h : now - s.lastInitAttempt < 30) :
    init_index cfg env false now s = ⟨s, none, []⟩ := by
  unfold init_index
  rw [if_pos ⟨rfl, h⟩]

/-- C8: a second `init_index` call without `force`, arriving within the
30-second cooldown window measured from the last admitted attempt, is a
no-op: it performs no store round-trip (empty effect trace), raises
nothing, and leaves the index handle, readiness flag, offline flag and
backoff timestamp exactly as the first call left them. -/
theorem init_index_cooldown_second_noop (cfg : Config) (env1 env2 : InitEnv)
    (f1 : Bool) (t1 t2 : Int) (s0 : AppState)
    (hadm : initAdmitted f1 t1 s0) (hwin : t2 - t1 < 30) :
    init_index cfg env2 false t2 (init_index cfg env1 f1 t1 s0).state =
      ⟨(init_index cfg env1 f1 t1 s0).state, none, []⟩ := by
  have hguard : ¬(f1 = false ∧ t1 - s0.lastInitAttempt < 30) := by
    rcases hadm with h | h
    · simp [h]
    · rintro ⟨-, hlt⟩
      omega
  have hts : (init_index cfg env1 f1 t1 s0).state.lastInitAttempt = t1 := by
    unfold init_index
    rw [if_neg hguard]
    split
    · rfl
    · split
      · rfl
      · split
        · rfl
        · split
          · split <;> rfl
          · rfl
  exact init_index_guard_skip cfg env2 t2 _ (by rw [hts]; exact hwin)

/-- Witness: first admitted attempt at t=100, second call at t=110. -/
theorem init_index_cooldown_second_noop_witness :
    init_index ⟨"mongodb://x", "db", "coll", "k"⟩ ⟨false, Except.error "down", true⟩
        false 110
        (init_index ⟨"mongodb://x", "db", "coll", "k"⟩ ⟨true, Except.ok [], true⟩
          false 100 ⟨none, false, false, 0⟩).state =
      ⟨(init_index ⟨"mongodb://x", "db", "coll", "k"⟩ ⟨true, Except.ok [], true⟩
          false 100 ⟨none, false, false, 0⟩).state, none, []⟩ :=
  init_index_cooldown_second_noop _ _ _ _ _ _ _ (Or.inr (by decide)) (by decide)

/-- C3 counterexample: with the store configured but no OpenAI key, a
successful `init_index` run ends with the readiness flag true while no
index handle was constructed at all (`_index_cache` is `None`) — the flag
does not certify an index build. -/
theorem ready_without_handle_cex :
    (init_index ⟨"mongodb://x", "db", "coll", ""⟩ ⟨true, Except.ok [⟨"d"⟩], true⟩
        false 100 ⟨none, false, false, 0⟩).state.ready = true ∧
    (init_index ⟨"mongodb://x", "db", "coll", ""⟩ ⟨true, Except.ok [⟨"d"⟩], true⟩
        false 100 ⟨none, false, false, 0⟩).state.indexCache = none :=
  ⟨rfl, rfl⟩

/-- C3 (amended): after an admitted `init_index` call with the store URI
configured, the readiness flag ends true exactly when the whole attempt
succeeded (ping ok, documents loaded, and — only when an OpenAI key is
configured — the index built); with no key the flag is set true with no
index handle (offline mode).  The flag gates the query path: any request
with a non-empty message on a non-ready state gets the 503 standby
response. -/
theorem init_index_ready_characterization (cfg : Config) (env : InitEnv)
    (force : Bool) (now : Int) (s : AppState)
    (hadm : initAdmitted force now s) (huri : cfg.mongoUri ≠ "") :
    ((init_index cfg env force now s).state.ready = true ↔
      initSuccess cfg env) ∧
    (cfg.openaiKey = "" → (init_index cfg env force now s).state.ready = true →
      (init_index cfg env force now s).state.indexCache = none) ∧
    (∀ (qenv : QueryEnv) (s2 : AppState) (msg : Option String),
      s2.ready = false → pyStrip (msg.getD "") ≠ "" →
      (query qenv s2 msg).1 = ⟨503, standbyBody⟩) := by
  have hguard : ¬(force = false ∧ now - s.lastInitAttempt < 30) := by
    rcases hadm with h | h
    · simp [h]
    · rintro ⟨-, hlt⟩
      omega
  refine ⟨?_, ?_, ?_⟩
  · cases hp : env.pingOk
    · simp [init_index, hguard, huri, hp, initSuccess]
    · cases hl : env.loadResult with
      | error e => simp [init_index, hguard, huri, hp, hl, initSuccess]
      | ok ds =>
          by_cases hk : cfg.openaiKey = ""
          · simp [init_index, hguard, huri, hp, hl, hk, initSuccess]
          · cases hb : env.buildOk
            · simp [init_index, hguard, huri, hp, hl, hk, hb, initSuccess]
            · simp [init_index, hguard, huri, hp, hl, hk, hb, initSuccess]
  · intro hk hready
    cases hp : env.pingOk
    · rw [init_index] at hready ⊢
      simp [hguard, huri, hp] at hready
    · cases hl : env.loadResult with
      | error e =>
          rw [init_index] at hready ⊢
          simp [hguard, huri, hp, hl] at hready
      | ok ds =>
          simp [init_index, hguard, huri, hp, hl, hk]
  · intro qenv s2 msg h2 hmsg
    simp only [query]
    rw [if_neg hmsg, if_pos h2]

/-- Witness: a concrete admitted offline-mode success ends ready. -/
theorem init_index_ready_characterization_witness :
    (init_index ⟨"mongodb://y", "db", "coll", ""⟩ ⟨true, Except.ok [], true⟩
        true 100 ⟨none, false, false, 0⟩).state.ready = true :=
  ((init_index_ready_characterization _ _ _ _ _ (Or.inl rfl) (by decide)).1).mpr
    ⟨by decide, rfl, ⟨[], rfl⟩, fun _ => rfl⟩

/-- C4 counterexample: a failing `init_index` attempt (ping failure) on a
previously online, ready state does not only clear the readiness flag: it
also flips the offline-mode flag from false to true (and updates the
backoff timestamp), so prior state is not left unchanged. -/
theorem init_failure_mutates_offline_cex :
    (init_index ⟨"mongodb://x", "db", "coll", "k"⟩ ⟨false, Except.ok [], true⟩
        false 100 ⟨some ⟨[⟨"d"⟩]⟩, true, false, 0⟩).state.offlineMode = true ∧
    (⟨some ⟨[⟨"d"⟩]⟩, true, false, 0⟩ : AppState).offlineMode = false :=
  ⟨rfl, rfl⟩

/-- C4 (amended): an admitted `init_index` call has exactly three
outcomes.  With no store URI it raises, leaving handle, readiness and
offline flags untouched and only the backoff timestamp updated.  On a
caught failure it clears the readiness flag, sets the offline flag true
and updates the timestamp, keeping the prior index handle.  On success it
sets the readiness flag.  In every case the cache holds either the prior
handle, no handle, or an index fully built from the loaded documents —
never a partially-built one. -/
theorem init_index_failure_shape (cfg : Config) (env : InitEnv)
    (force : Bool) (now : Int) (s : AppState) (hadm : initAdmitted force now s) :
    (cfg.mongoUri = "" →
      init_index cfg env force now s =
        ⟨⟨s.indexCache, s.ready, s.offlineMode, now⟩,
          some "MONGO_URI no configurada", []⟩) ∧
    (cfg.mongoUri ≠ "" → ¬initSuccess cfg env →
      (init_index cfg env force now s).state = ⟨s.indexCache, false, true, now⟩ ∧
      (init_index cfg env force now s).raised = none) ∧
    (initSuccess cfg env → (init_index cfg env force now s).state.ready = true) ∧
    ((init_index cfg env force now s).state.indexCache = s.indexCache ∨
     (init_index cfg env force now s).state.indexCache = none ∨
     (∃ ds, env.loadResult = Except.ok ds ∧
       (init_index cfg env force now s).state.indexCache = some ⟨ds⟩)) := by
  have hguard : ¬(force = false ∧ now - s.lastInitAttempt < 30) := by
    rcases hadm with h | h
    · simp [h]
    · rintro ⟨-, hlt⟩
      omega
  refine ⟨?_, ?_, ?_, ?_⟩
  · intro huri
    unfold init_index
    rw [if_neg hguard, if_pos huri]
  · intro huri hfail
    cases hp : env.pingOk
    · constructor <;> simp [init_index, hguard, huri, hp]
    · cases hl : env.loadResult with
      | error e => constructor <;> simp [init_index, hguard, huri, hp, hl]
      | ok ds =>
          by_cases hk : cfg.openaiKey = ""
          · exact absurd ⟨huri, hp, ⟨ds, hl⟩, fun hne => absurd hk hne⟩ hfail
          · cases hb : env.buildOk
            · constructor <;> simp [init_index, hguard, huri, hp, hl, hk, hb]
            · exact absurd ⟨huri, hp, ⟨ds, hl⟩, fun _ => hb⟩ hfail
  · rintro ⟨huri, hp, ⟨ds, hl⟩, hkb⟩
    by_cases hk : cfg.openaiKey = ""
    · simp [init_index, hguard, huri, hp, hl, hk]
    · simp [init_index, hguard, huri, hp, hl, hk, hkb hk]
  · by_cases hg : force = false ∧ now - s.lastInitAttempt < 30
    · rw [init_index, if_pos hg]
      exact Or.inl rfl
    · by_cases huri : cfg.mongoUri = ""
      · rw [init_index, if_neg hg, if_pos huri]
        exact Or.inl rfl
      · cases hp : env.pingOk
        · simp [init_index, hg, huri, hp]
        · cases hl : env.loadResult with
          | error e => simp [init_index, hg, huri, hp, hl]
          | ok ds =>
              by_cases hk : cfg.openaiKey = ""
              · simp [init_index, hg, huri, hp, hl, hk]
              · cases hb : env.buildOk
                · simp [init_index, hg, huri, hp, hl, hk, hb]
                · refine Or.inr (Or.inr ⟨ds, rfl, ?_⟩)
                  simp [init_index, hg, huri, hp, hl, hk, hb]

/-- Witness: a concrete forced ping failure clears readiness, enters
offline mode and keeps the prior (absent) handle. -/
theorem init_index_failure_shape_witness :
    (init_index ⟨"mongodb://y", "db", "coll", "k"⟩ ⟨false, Except.ok [], true⟩
        true 50 ⟨none, true, false, 7⟩).state = ⟨none, false, true, 50⟩ :=
  ((init_index_failure_shape _ _ _ _ _ (Or.inl rfl)).2.1 (by decide)
    (fun hs => absurd hs.2.1 (by decide))).1

/-- C5 counterexample: a zero-match offline query returns the fixed
no-matches body, which carries no `examples` field at all — not an empty
examples list as the claim states. -/
theorem offline_no_match_examples_cex :
    (query ⟨Except.ok "", none, [⟨"1", "Mouse", []⟩], 0⟩ ⟨none, true, true, 0⟩
        (some "laptop")).1 = ⟨200, offlineEmptyBody "laptop"⟩ ∧
    hasKey (query ⟨Except.ok "", none, [⟨"1", "Mouse", []⟩], 0⟩
        ⟨none, true, true, 0⟩ (some "laptop")).1.body "examples" = false :=
  ⟨rfl, rfl⟩

/-- C5 (amended): when the offline store-search path serves a ready
query and the store call succeeds, the handler matches the question
case-insensitively against the `name` field over all documents of the
collection, excludes the `_id` field from the results
(`mongoFindNameRegex` is exactly that semantics), and returns the
templated count message with the first three matches as examples and
mode `offline`; with zero matches it returns the deterministic
no-matches message, mode `offline`, with no `examples` field. -/
theorem offline_search_behaviour (env : QueryEnv) (s : AppState)
    (message : Option String) (hready : s.ready = true)
    (hpath : (!s.offlineMode && s.indexCache.isSome) = false)
    (hfind : env.findFailure = none)
    (hmsg : pyStrip (message.getD "") ≠ "") :
    (mongoFindNameRegex env.collection (pyStrip (message.getD "")) = [] →
      (query env s message).1 =
        ⟨200, offlineEmptyBody (pyStrip (message.getD ""))⟩ ∧
      hasKey (query env s message).1.body "examples" = false) ∧
    (mongoFindNameRegex env.collection (pyStrip (message.getD "")) ≠ [] →
      (query env s message).1 =
        ⟨200, offlineFoundBody
          (mongoFindNameRegex env.collection (pyStrip (message.getD ""))).length
          (pyStrip (message.getD ""))
          ((mongoFindNameRegex env.collection (pyStrip (message.getD ""))).take 3)⟩) := by
  have hnotready : ¬s.ready = false := by rw [hready]; decide
  have hnotidx : ¬(!s.offlineMode && s.indexCache.isSome) = true := by
    rw [hpath]; decide
  constructor
  · intro hempty
    have h1 : (query env s message).1 =
        ⟨200, offlineEmptyBody (pyStrip (message.getD ""))⟩ := by
      simp only [query]
      rw [if_neg hmsg, if_neg hnotready, if_neg hnotidx, hfind]
      simp [hempty]
    refine ⟨h1, ?_⟩
    rw [h1]
    rfl
  · intro hne
    simp only [query]
    rw [if_neg hmsg, if_neg hnotready, if_neg hnotidx, hfind]
    simp [List.isEmpty_iff, hne]

/-- Witness: a two-document collection with one `name` matching
`laptop` case-insensitively yields the count-1 message with that single
projected document as example. -/
theorem offline_search_behaviour_witness :
    (query ⟨Except.ok "", none, [⟨"1", "Laptop Dell", [("price", "1000")]⟩,
        ⟨"2", "Mouse", []⟩], 0⟩ ⟨none, true, true, 0⟩ (some "laptop")).1 =
      ⟨200, offlineFoundBody 1 "laptop" [⟨"Laptop Dell", [("price", "1000")]⟩]⟩ :=
  (offline_search_behaviour
    ⟨Except.ok "", none, [⟨"1", "Laptop Dell", [("price", "1000")]⟩,
      ⟨"2", "Mouse", []⟩], 0⟩
    ⟨none, true, true, 0⟩ (some "laptop") rfl rfl rfl (by decide)).2 (by decide)

/-- C7 counterexample: on a ready offline-mode state the health body
reports `index_cached` as true although no index handle is cached
(`_index_cache` is `None`): the field mirrors the readiness flag, not
actual cache presence. -/
theorem healthz_index_cached_cex :
    getField (healthz ⟨"mongodb://x", "db", "coll", ""⟩
        ⟨none, true, true, 0⟩).body "index_cached" = some (.bool true) ∧
    (⟨none, true, true, 0⟩ : AppState).indexCache = none :=
  ⟨rfl, rfl⟩

/-- C7 (amended): `GET /healthz` returns 503 exactly when the readiness
flag is false and 200 otherwise, and its body reports `ok` = readiness
flag, `mongo_uri_configured` = whether the store connection string is
non-empty, and `index_cached` — which repeats the readiness flag rather
than whether the index handle is actually cached (it also carries a
fourth boolean, `offline_mode`). -/
theorem healthz_reporting (cfg : Config) (s : AppState) :
    ((healthz cfg s).status = 503 ↔ s.ready = false) ∧
    getField (healthz cfg s).body "ok" = some (.bool s.ready) ∧
    getField (healthz cfg s).body "mongo_uri_configured" =
      some (.bool (cfg.mongoUri != "")) ∧
    getField (healthz cfg s).body "index_cached" = some (.bool s.ready) := by
  cases hs : s.ready <;> simp [healthz, getField, hs]

/-- C9 counterexample: a 200 response from the offline store-search path
carries no `elapsed` field, so not every successful response has the
three fields response/elapsed/mode. -/
theorem offline_ok_lacks_elapsed_cex :
    (query ⟨Except.ok "", none, [⟨"1", "Laptop Dell", []⟩], 2⟩
        ⟨none, true, true, 0⟩ (some "laptop")).1.status = 200 ∧
    hasKey (query ⟨Except.ok "", none, [⟨"1", "Laptop Dell", []⟩], 2⟩
        ⟨none, true, true, 0⟩ (some "laptop")).1.body "elapsed" = false :=
  ⟨rfl, rfl⟩

/-- C9 (amended): every 200 response from `POST /api/query` carries the
`response` and `mode` fields, and it carries the `elapsed` field exactly
when its mode is `online` (the index-backed path) — so every offline
store-search 200 response omits `elapsed`. -/
theorem ok_response_fields (env : QueryEnv) (s : AppState)
    (message : Option String) (h200 : (query env s message).1.status = 200) :
    hasKey (query env s message).1.body "response" = true ∧
    hasKey (query env s message).1.body "mode" = true ∧
    (hasKey (query env s message).1.body "elapsed" = true ↔
      getField (query env s message).1.body "mode" = some (.str "online")) := by
  rcases query_shape env s message with ⟨-, h⟩ | h | ⟨a, h⟩ | ⟨q, h⟩
    | ⟨n, q, pv, h⟩ | ⟨e, eff, h⟩ <;> rw [h] at h200 ⊢
  · simp at h200
  · simp at h200
  · exact ⟨rfl, rfl, Iff.intro (fun _ => rfl) (fun _ => rfl)⟩
  · refine ⟨rfl, rfl, Iff.intro (fun he => ?_) (fun hm => ?_)⟩
    · simp [hasKey, offlineEmptyBody] at he
    · simp [getField, offlineEmptyBody] at hm
  · refine ⟨rfl, rfl, Iff.intro (fun he => ?_) (fun hm => ?_)⟩
    · simp [hasKey, offlineFoundBody] at he
    · simp [getField, offlineFoundBody] at hm
  · simp at h200

/-- Witness: the index-backed 200 carries all three fields. -/
theorem ok_response_fields_witness :
    hasKey (query ⟨Except.ok "resp", none, [], 3⟩
        ⟨some ⟨[⟨"d"⟩]⟩, true, false, 0⟩ (some "hola")).1.body "elapsed" = true :=
  (ok_response_fields ⟨Except.ok "resp", none, [], 3⟩
      ⟨some ⟨[⟨"d"⟩]⟩, true, false, 0⟩ (some "hola") rfl).2.2.mpr rfl

end App
